import Mathlib

/-!
Verification of the PLC simulator core (ADS mock server): the sensor
registry, the waveform value generator, the protocol request handlers and
the notification scheduler, shallowly embedded from
`src/server/adsServer.ts` and `supabase/functions/plc-data-simulator/index.ts`.

Machine floats are modelled as real numbers; the external clock
(`Date.now()`) and the RNG (`Math.random()`) are passed as explicit
parameters.  The JS objects keyed by synthesized strings are modelled as
association lists over the same key strings, with JS assignment semantics
(overwrite in place, append when fresh).
-/

namespace PlcSim

/-- `pattern_config` of a sensor: waveform parameters. -/
structure PatternConfig where
  amplitude : ℝ
  frequency : ℝ
  phase_offset : ℝ
  dc_offset : ℝ

/-- The in-memory `SensorData` record of `adsServer.ts`.  `data_pattern` is a
string: the TypeScript union is erased at runtime and the database path casts
arbitrary strings into it, which is why the generator has a default branch.
Timestamps are integer milliseconds. -/
structure SensorData where
  id : String
  module_id : String
  name : String
  data_pattern : String
  pattern_config : PatternConfig
  min_value : Option ℝ
  max_value : Option ℝ
  value : ℝ
  timestamp : ℤ

/-- One row of the `sensors` table as selected by `initializeSensorData`. -/
structure SensorRow where
  id : String
  module_id : String
  name : String
  data_pattern : String
  min_value : Option ℝ
  max_value : Option ℝ

/-- A `NotificationSubscriber` entry of the `subscribers` array. -/
structure NotificationSubscriber where
  notificationHandle : ℕ
  targetAmsNetId : String
  targetAdsPort : ℕ
  indexGroup : ℕ
  indexOffset : ℕ
  cycleTime : ℤ
  lastSendTime : ℤ
deriving DecidableEq

/-- The server's mutable globals: `sensorDataMap`, `subscribers`, `nextHandle`. -/
structure ServerState where
  sensorDataMap : List (String × SensorData)
  subscribers : List NotificationSubscriber
  nextHandle : ℕ

/-- What a handler passes to `res(...)`: an acknowledgement, a value payload,
a fresh notification handle, or an ADS error code. -/
inductive AdsResponse where
  | ack : AdsResponse
  | value : ℝ → AdsResponse
  | handle : ℕ → AdsResponse
  | error : ℕ → AdsResponse

/-- ADS error code 1808, Symbol not found. -/
def SYMBOL_NOT_FOUND : ℕ := 1808

/-- ADS error code 1812, Invalid notification handle. -/
def INVALID_NOTIFICATION_HANDLE : ℕ := 1812

/-- The synthesized map key `Module${g}_Sensor${o}`. -/
def sensorKey (g o : ℕ) : String :=
  "Module" ++ toString g ++ "_Sensor" ++ toString o

/-- Lookup `m[k]` on the string-keyed JS object. -/
def mapGet (m : List (String × SensorData)) (k : String) : Option SensorData :=
  (m.find? (fun e => e.1 == k)).map (fun e => e.2)

/-- Assignment `m[k] = v` on the string-keyed JS object: overwrite in place
when the key is present, append otherwise (JS insertion order). -/
def mapSet (m : List (String × SensorData)) (k : String) (v : SensorData) :
    List (String × SensorData) :=
  if m.any (fun e => e.1 == k) then
    m.map (fun e => if e.1 == k then (k, v) else e)
  else
    m ++ [(k, v)]

/-- The two trailing `if` statements of `generateSensorValue`: raise to
`min_value`, then lower to `max_value`, each only when that bound is set. -/
noncomputable def applyBounds (mn mx : Option ℝ) (v : ℝ) : ℝ :=
  let v1 := match mn with
    | some m => if v < m then m else v
    | none => v
  match mx with
  | some M => if M < v1 then M else v1
  | none => v1

/-- `generateSensorValue` of `adsServer.ts`.  `time` is `Date.now()/1000` and
`r` the `Math.random()` draw, both made explicit parameters. -/
noncomputable def generateSensorValue (sensor : SensorData) (time r : ℝ) : ℝ :=
  let a := sensor.pattern_config.amplitude
  let f := sensor.pattern_config.frequency
  let p := sensor.pattern_config.phase_offset
  let dc := sensor.pattern_config.dc_offset
  let value :=
    if sensor.data_pattern = "sine" then
      dc + a * Real.sin (f * time + p)
    else if sensor.data_pattern = "noise" then
      dc + a * Real.sin (f * time + p) + (r - 0.5) * a * 0.2
    else if sensor.data_pattern = "square" then
      dc + (if Real.sin (f * time + p) > 0 then a else -a)
    else
      dc
  applyBounds sensor.min_value sensor.max_value value

/-- `generateSensorValue` of the `plc-data-simulator` edge function.  `r` is
the `Math.random()` draw. -/
noncomputable def simGenerateSensorValue (pattern : String) (minValue maxValue : ℝ)
    (time : ℝ) (patternConfig : Option PatternConfig) (r : ℝ) : ℝ :=
  let range := maxValue - minValue
  let midpoint := minValue + range / 2
  let config := patternConfig.getD
    { amplitude := range * 0.3, frequency := 0.001, phase_offset := 0, dc_offset := midpoint }
  if pattern = "sine" then
    let sineValue := config.amplitude * Real.sin (config.frequency * time + config.phase_offset) + config.dc_offset
    max minValue (min maxValue sineValue)
  else if pattern = "noise" then
    let sineBase := config.amplitude * Real.sin (config.frequency * time + config.phase_offset) + config.dc_offset
    let noise := (r - 0.5) * config.amplitude * 0.2
    max minValue (min maxValue (sineBase + noise))
  else if pattern = "square" then
    let squareValue := config.dc_offset +
      (if Real.sin (config.frequency * time + config.phase_offset) > 0 then
        config.amplitude * 0.8
      else
        -(config.amplitude * 0.2))
    max minValue (min maxValue squareValue)
  else
    minValue + r * (maxValue - minValue)

/-- One mock sensor of `createMockSensorData`. -/
noncomputable def mockSensor (m s : ℕ) : SensorData :=
  { id := "mock-" ++ toString m ++ "-" ++ toString s
    module_id := "mock-module-" ++ toString m
    name := sensorKey m s
    data_pattern := if s = 1 then "sine" else if s = 2 then "noise" else "square"
    pattern_config :=
      { amplitude := 30 + (s : ℝ) * 10
        frequency := 0.001 + (s : ℝ) * 0.0005
        phase_offset := (s : ℝ) * 1.57
        dc_offset := 50 + (s : ℝ) * 10 }
    min_value := some 0
    max_value := some 100
    value := 0
    timestamp := 0 }

/-- The (module, sensor) pairs visited by the two nested loops of
`createMockSensorData`: modules 1..5 outer, sensors 1..3 inner. -/
def mockPairs : List (ℕ × ℕ) :=
  ((List.range 5).map (fun i => i + 1)).flatMap
    (fun m => ((List.range 3).map (fun i => i + 1)).map (fun s => (m, s)))

/-- `createMockSensorData`: the map left in `sensorDataMap` after the demo
loops assign every `Module{m}_Sensor{s}` key. -/
noncomputable def createMockSensorData : List (String × SensorData) :=
  mockPairs.foldl (fun acc ms => mapSet acc (sensorKey ms.1 ms.2) (mockSensor ms.1 ms.2)) []

/-- A database row turned into the in-memory record by `initializeSensorData`
(fixed pattern_config, JS `|| 'sine'` fallback on a falsy pattern string). -/
noncomputable def rowToSensorData (row : SensorRow) : SensorData :=
  { id := row.id
    module_id := row.module_id
    name := row.name
    data_pattern := if row.data_pattern = "" then "sine" else row.data_pattern
    pattern_config := { amplitude := 50, frequency := 0.001, phase_offset := 0, dc_offset := 50 }
    min_value := row.min_value
    max_value := row.max_value
    value := 0
    timestamp := 0 }

/-- The accumulator of the `sensors.forEach` loop of `initializeSensorData`:
the `moduleIdToIndex` map, both running counters, and the map being built. -/
structure InitState where
  moduleIdToIndex : List (String × ℕ)
  nextModuleIndex : ℕ
  nextSensorIndex : ℕ
  sensorDataMap : List (String × SensorData)

/-- One iteration of the `forEach` over database rows: assign the module a
fresh module index when unseen, assign the row the next global sensor index
(the counter never resets per module), and store under the synthesized key. -/
noncomputable def processRow (st : InitState) (row : SensorRow) : InitState :=
  let st1 :=
    if (st.moduleIdToIndex.find? (fun e => e.1 == row.module_id)).isSome then st
    else
      { st with
          moduleIdToIndex := st.moduleIdToIndex ++ [(row.module_id, st.nextModuleIndex)]
          nextModuleIndex := st.nextModuleIndex + 1 }
  let mIdx := (((st1.moduleIdToIndex.find? (fun e => e.1 == row.module_id)).map
    (fun e => e.2)).getD 0)
  let sIdx := st1.nextSensorIndex
  { st1 with
      nextSensorIndex := sIdx + 1
      sensorDataMap := mapSet st1.sensorDataMap (sensorKey mIdx sIdx) (rowToSensorData row) }

/-- The registry built by `initializeSensorData` from the database's current
sensor rows (before the initial `updateSensorData` call, which changes only
values, never keys). -/
noncomputable def initializeSensorDataFromRows (rows : List SensorRow) :
    List (String × SensorData) :=
  (rows.foldl processRow
    { moduleIdToIndex := [], nextModuleIndex := 1, nextSensorIndex := 1, sensorDataMap := [] }).sensorDataMap

/-- `updateSensorData`: recompute every sensor's value from its waveform and
stamp the current time.  `rand` supplies the per-sensor `Math.random()` draw. -/
noncomputable def updateSensorData (t : ℝ) (rand : String → ℝ) (now : ℤ)
    (m : List (String × SensorData)) : List (String × SensorData) :=
  m.map (fun e => (e.1, { e.2 with value := generateSensorValue e.2 t (rand e.1), timestamp := now }))

/-- The `onReadReq` handler: serialize the sensor's current value, or error
1808 when the synthesized key has no entry.  State is returned unchanged. -/
def onReadReq (s : ServerState) (g o : ℕ) : AdsResponse × ServerState :=
  match mapGet s.sensorDataMap (sensorKey g o) with
  | some sensor => (.value sensor.value, s)
  | none => (.error SYMBOL_NOT_FOUND, s)

/-- The `onWriteReq` handler: store the raw decoded float (no clamping) and
stamp the time, or error 1808 on an unknown key. -/
def onWriteReq (s : ServerState) (g o : ℕ) (data : ℝ) (now : ℤ) :
    AdsResponse × ServerState :=
  match mapGet s.sensorDataMap (sensorKey g o) with
  | some sensor =>
      (.ack,
        { s with
            sensorDataMap := mapSet s.sensorDataMap (sensorKey g o)
              { sensor with value := data, timestamp := now } })
  | none => (.error SYMBOL_NOT_FOUND, s)

/-- The `onReadWriteReq` handler: like a read (the write payload is ignored
for the value), or error 1808 on an unknown key. -/
def onReadWriteReq (s : ServerState) (g o : ℕ) : AdsResponse × ServerState :=
  match mapGet s.sensorDataMap (sensorKey g o) with
  | some sensor => (.value sensor.value, s)
  | none => (.error SYMBOL_NOT_FOUND, s)

/-- The `onAddNotification` handler: on a known key, hand out `nextHandle`,
post-increment it, and append the subscription with `lastSendTime = 0`;
error 1808 otherwise. -/
def onAddNotification (s : ServerState) (g o : ℕ) (amsNetId : String)
    (adsPort : ℕ) (cycleTime : ℤ) : AdsResponse × ServerState :=
  match mapGet s.sensorDataMap (sensorKey g o) with
  | some _ =>
      (.handle s.nextHandle,
       { s with
          subscribers := s.subscribers ++
            [{ notificationHandle := s.nextHandle, targetAmsNetId := amsNetId,
               targetAdsPort := adsPort, indexGroup := g, indexOffset := o,
               cycleTime := cycleTime, lastSendTime := 0 }]
          nextHandle := s.nextHandle + 1 })
  | none => (.error SYMBOL_NOT_FOUND, s)

/-- The `onDeleteNotification` handler: when some subscriber carries the
handle, drop every subscriber with that handle and acknowledge; error 1812
otherwise. -/
def onDeleteNotification (s : ServerState) (h : ℕ) : AdsResponse × ServerState :=
  match s.subscribers.find? (fun sub => sub.notificationHandle == h) with
  | some _ =>
      (.ack, { s with subscribers :=
        s.subscribers.filter (fun sub => sub.notificationHandle != h) })
  | none => (.error INVALID_NOTIFICATION_HANDLE, s)

/-- One decoded protocol request, with the clock values the handler reads. -/
inductive Request where
  | read (g o : ℕ)
  | write (g o : ℕ) (v : ℝ) (now : ℤ)
  | readWrite (g o : ℕ)
  | addNotification (g o : ℕ) (amsNetId : String) (adsPort : ℕ) (cycleTime : ℤ)
  | deleteNotification (h : ℕ)

/-- The dispatcher: route one decoded request to its handler. -/
def step (s : ServerState) : Request → AdsResponse × ServerState
  | .read g o => onReadReq s g o
  | .write g o v now => onWriteReq s g o v now
  | .readWrite g o => onReadWriteReq s g o
  | .addNotification g o ams port ct => onAddNotification s g o ams port ct
  | .deleteNotification h => onDeleteNotification s h

/-- The handles returned by successful AddNotification responses along a run. -/
def issuedHandles : ServerState → List Request → List ℕ
  | _, [] => []
  | s, r :: rs =>
      (match (step s r).1 with
        | .handle h => [h]
        | _ => []) ++ issuedHandles (step s r).2 rs

/-- The server's startup state over a given registry: no subscribers,
`nextHandle = 1`. -/
def initialState (m : List (String × SensorData)) : ServerState :=
  { sensorDataMap := m, subscribers := [], nextHandle := 1 }

/-- One subscriber's step inside the notification `setInterval` body: when
`now - lastSendTime >= cycleTime` and the sensor exists, deliver (report the
handle) and set `lastSendTime := now`; otherwise leave it untouched.  The two
`new Date().getTime()` reads of one iteration are modelled as the single tick
instant `now`. -/
def tickSub (now : ℤ) (m : List (String × SensorData)) (sub : NotificationSubscriber) :
    NotificationSubscriber × Option ℕ :=
  if sub.cycleTime ≤ now - sub.lastSendTime then
    match mapGet m (sensorKey sub.indexGroup sub.indexOffset) with
    | some _ => ({ sub with lastSendTime := now }, some sub.notificationHandle)
    | none => (sub, none)
  else
    (sub, none)

/-- One run of the notification `setInterval` body at instant `now`: the
updated state and the handles delivered to, in subscriber order. -/
def notificationTick (now : ℤ) (s : ServerState) : ServerState × List ℕ :=
  ({ s with subscribers := s.subscribers.map (fun sub => (tickSub now s.sensorDataMap sub).1) },
   s.subscribers.filterMap (fun sub => (tickSub now s.sensorDataMap sub).2))

/-- The instants at which handle `h` is delivered to, across a sequence of
scheduler ticks at the given instants. -/
def deliveriesOf (h : ℕ) : List ℤ → ServerState → List ℤ
  | [], _ => []
  | t :: ts, s =>
      (if h ∈ (notificationTick t s).2 then [t] else []) ++
        deliveriesOf h ts (notificationTick t s).1

/-- Every subscriber carrying handle `h` (there is at most one) has cycle
time `c` and last-send time `L`. -/
def handleState (h : ℕ) (c L : ℤ) (s : ServerState) : Prop :=
  s.subscribers.countP (fun sub => sub.notificationHandle == h) ≤ 1 ∧
  ∀ sub ∈ s.subscribers, sub.notificationHandle = h →
    sub.cycleTime = c ∧ sub.lastSendTime = L

/-- A database sensor row with the demo bounds [0, 100]. -/
noncomputable def dbRow (i m : String) : SensorRow :=
  { id := i, module_id := m, name := i, data_pattern := "sine",
    min_value := some 0, max_value := some 100 }

/-- Six database rows: module A with sensors a1 a2 a3, then module B with
sensors b1 b2 b3 — two modules of exactly three sensors each. -/
noncomputable def twoModuleRows : List SensorRow :=
  [dbRow "a1" "A", dbRow "a2" "A", dbRow "a3" "A",
   dbRow "b1" "B", dbRow "b2" "B", dbRow "b3" "B"]

/-- The startup state over the demo registry. -/
noncomputable def mockState : ServerState := initialState createMockSensorData

/-- A subscription on Module1_Sensor1 with a one-second cycle time, as
`onAddNotification` creates it. -/
def oneSecondSub : NotificationSubscriber :=
  { notificationHandle := 1, targetAmsNetId := "192.168.1.10.1.1", targetAdsPort := 851,
    indexGroup := 1, indexOffset := 1, cycleTime := 1000, lastSendTime := 0 }

/-- The demo registry with that one active subscription. -/
noncomputable def subscribedState : ServerState :=
  { sensorDataMap := createMockSensorData, subscribers := [oneSecondSub], nextHandle := 2 }

/-- A square waveform configuration sampled where the carrier sine is
positive: amplitude 10 about dc offset 50, phase π/2, at time 0. -/
noncomputable def squareCfg : PatternConfig :=
  { amplitude := 10, frequency := 1, phase_offset := Real.pi / 2, dc_offset := 50 }

/-- An unbounded square-wave sensor over `squareCfg`. -/
noncomputable def squareSensor : SensorData :=
  { id := "sq", module_id := "sq", name := "sq", data_pattern := "square",
    pattern_config := squareCfg, min_value := none, max_value := none,
    value := 0, timestamp := 0 }

/-- The documented sine example: amplitude 30, frequency 0.001, phase 0,
dc offset 50, no bounds. -/
noncomputable def sineExample : SensorData :=
  { id := "t", module_id := "t", name := "t", data_pattern := "sine",
    pattern_config := { amplitude := 30, frequency := 0.001, phase_offset := 0, dc_offset := 50 },
    min_value := none, max_value := none, value := 0, timestamp := 0 }

lemma mapGet_cons_pos (e : String × SensorData) (tl : List (String × SensorData))
    (k : String) (he : (e.1 == k) = true) : mapGet (e :: tl) k = some e.2 := by
  simp [mapGet, List.find?_cons, he]

lemma mapGet_cons_neg (e : String × SensorData) (tl : List (String × SensorData))
    (k : String) (he : (e.1 == k) = false) : mapGet (e :: tl) k = mapGet tl k := by
  simp [mapGet, List.find?_cons, he]

lemma mapGet_overwrite (m : List (String × SensorData)) (k : String) (v : SensorData)
    (h : m.any (fun e => e.1 == k) = true) :
    mapGet (m.map (fun e => if e.1 == k then (k, v) else e)) k = some v := by
  induction m with
  | nil => simp at h
  | cons e tl ih =>
    simp only [List.any_cons, Bool.or_eq_true] at h
    simp only [List.map_cons]
    by_cases he : (e.1 == k) = true
    · rw [if_pos he]
      exact mapGet_cons_pos (k, v) _ k (by simp)
    · rw [if_neg he]
      have h' : (tl.any fun e => e.1 == k) = true := by
        rcases h with h | h
        · exact absurd h he
        · exact h
      rw [mapGet_cons_neg e _ k (by simpa using he)]
      exact ih h'

lemma mapGet_append_fresh (m : List (String × SensorData)) (k : String) (v : SensorData)
    (h : m.any (fun e => e.1 == k) = false) :
    mapGet (m ++ [(k, v)]) k = some v := by
  have hn : m.find? (fun e => e.1 == k) = none := by
    rw [List.find?_eq_none]
    intro x hx hxk
    have hany : m.any (fun e => e.1 == k) = true := List.any_eq_true.mpr ⟨x, hx, hxk⟩
    rw [h] at hany
    exact Bool.false_ne_true hany
  simp [mapGet, List.find?_append, hn]

lemma mapGet_mapSet_self (m : List (String × SensorData)) (k : String) (v : SensorData) :
    mapGet (mapSet m k v) k = some v := by
  unfold mapSet
  by_cases h : m.any (fun e => e.1 == k) = true
  · rw [if_pos h]; exact mapGet_overwrite m k v h
  · rw [if_neg h]
    refine mapGet_append_fresh m k v ?_
    simp only [Bool.not_eq_true] at h
    exact h

lemma mapGet_updateSensorData (t : ℝ) (rand : String → ℝ) (now : ℤ)
    (m : List (String × SensorData)) (k : String) :
    mapGet (updateSensorData t rand now m) k =
      (mapGet m k).map
        (fun sd => { sd with value := generateSensorValue sd t (rand k), timestamp := now }) := by
  induction m with
  | nil => rfl
  | cons e tl ih =>
    obtain ⟨a, b⟩ := e
    by_cases he : (a == k) = true
    · have hk : a = k := by simpa using he
      subst hk
      simp only [updateSensorData, List.map_cons]
      rw [mapGet_cons_pos _ _ _ (by simp), mapGet_cons_pos _ _ _ (by simp)]
      rfl
    · have he' : (a == k) = false := by simpa using he
      simp only [updateSensorData, List.map_cons]
      rw [mapGet_cons_neg _ _ _ (by simpa using he'), mapGet_cons_neg _ _ _ he']
      simpa [updateSensorData] using ih

lemma applyBounds_some_some (m M v : ℝ) :
    applyBounds (some m) (some M) v =
      if M < (if v < m then m else v) then M else (if v < m then m else v) := rfl

lemma applyBounds_none_some_eq (M v : ℝ) :
    applyBounds none (some M) v = if M < v then M else v := rfl

lemma applyBounds_some_none_eq (m v : ℝ) :
    applyBounds (some m) none v = if v < m then m else v := rfl

lemma applyBounds_none_none (v : ℝ) : applyBounds none none v = v := rfl

lemma applyBounds_id (m M v : ℝ) (h1 : m ≤ v) (h2 : v ≤ M) :
    applyBounds (some m) (some M) v = v := by
  rw [applyBounds_some_some, if_neg (not_lt.mpr h1), if_neg (not_lt.mpr h2)]

lemma applyBounds_mem (m M v : ℝ) (h : m ≤ M) :
    applyBounds (some m) (some M) v ∈ Set.Icc m M := by
  rw [applyBounds_some_some]
  constructor <;> split_ifs <;> linarith

lemma applyBounds_none_some (M v : ℝ) : applyBounds none (some M) v = min v M := by
  rw [applyBounds_none_some_eq]
  split_ifs with h
  · exact (min_eq_right (le_of_lt h)).symm
  · exact (min_eq_left (not_lt.mp h)).symm

lemma applyBounds_some_none (m v : ℝ) : applyBounds (some m) none v = max v m := by
  rw [applyBounds_some_none_eq]
  split_ifs with h
  · exact (max_eq_right (le_of_lt h)).symm
  · exact (max_eq_left (not_lt.mp h)).symm

lemma clamp_mem (mn mx v : ℝ) (h : mn ≤ mx) : max mn (min mx v) ∈ Set.Icc mn mx :=
  ⟨le_max_left mn _, max_le h (min_le_left mx v)⟩

/-- C3: a Read, Write, ReadWrite or AddNotification request whose
(moduleIndex, sensorIndex) address has no SensorState in the registry is
answered with error code 1808 (SYMBOL_NOT_FOUND), and both the sensor map and
the subscriber set are returned unchanged.  The handlers are total functions,
so no such request can crash the dispatcher. -/
theorem unknown_address_rejected (s : ServerState) (g o : ℕ)
    (h : mapGet s.sensorDataMap (sensorKey g o) = none) :
    onReadReq s g o = (.error SYMBOL_NOT_FOUND, s) ∧
    (∀ v now, onWriteReq s g o v now = (.error SYMBOL_NOT_FOUND, s)) ∧
    onReadWriteReq s g o = (.error SYMBOL_NOT_FOUND, s) ∧
    (∀ ams port ct, onAddNotification s g o ams port ct = (.error SYMBOL_NOT_FOUND, s)) := by
  refine ⟨?_, ?_, ?_, ?_⟩ <;> intros <;>
    simp [onReadReq, onWriteReq, onReadWriteReq, onAddNotification, h]

/-- The demo registry has no sensor at address (6,1) (moduleIndex beyond the
five modules), and every request kind on it is answered with error 1808. -/
theorem unknown_address_rejected_witness :
    mapGet mockState.sensorDataMap (sensorKey 6 1) = none ∧
    (onReadReq mockState 6 1 = (.error SYMBOL_NOT_FOUND, mockState) ∧
     (∀ v now, onWriteReq mockState 6 1 v now = (.error SYMBOL_NOT_FOUND, mockState)) ∧
     onReadWriteReq mockState 6 1 = (.error SYMBOL_NOT_FOUND, mockState) ∧
     (∀ ams port ct,
       onAddNotification mockState 6 1 ams port ct = (.error SYMBOL_NOT_FOUND, mockState))) :=
  ⟨rfl, unknown_address_rejected mockState 6 1 rfl⟩

/-- C7: the sine path of the value generator is deterministic — the random
draw is never read, so two evaluations at the same config and time agree —
and the documented example (amplitude 30, frequency 0.001, phase 0,
dc offset 50) at t = 0 evaluates to exactly 50. -/
theorem sine_deterministic :
    (∀ (sensor : SensorData), sensor.data_pattern = "sine" →
      ∀ (t r1 r2 : ℝ), generateSensorValue sensor t r1 = generateSensorValue sensor t r2) ∧
    generateSensorValue sineExample 0 0 = 50 := by
  constructor
  · intro sensor hs t r1 r2
    simp [generateSensorValue, hs]
  · simp [generateSensorValue, sineExample, applyBounds]

/-- C10: a data_pattern outside {sine, noise, square} takes the default
branch: the generator returns the config's dc offset, subject to the same
per-side bound clamping, instead of failing.  With both bounds present and
the dc offset in range, the result is exactly the dc offset; with no bounds
it is the dc offset unconditionally. -/
theorem unknown_pattern_returns_dc (sensor : SensorData) (t r : ℝ)
    (h1 : sensor.data_pattern ≠ "sine") (h2 : sensor.data_pattern ≠ "noise")
    (h3 : sensor.data_pattern ≠ "square") :
    generateSensorValue sensor t r =
      applyBounds sensor.min_value sensor.max_value sensor.pattern_config.dc_offset ∧
    (∀ m M, sensor.min_value = some m → sensor.max_value = some M →
      m ≤ sensor.pattern_config.dc_offset → sensor.pattern_config.dc_offset ≤ M →
      generateSensorValue sensor t r = sensor.pattern_config.dc_offset) ∧
    (sensor.min_value = none → sensor.max_value = none →
      generateSensorValue sensor t r = sensor.pattern_config.dc_offset) := by
  have hg : generateSensorValue sensor t r =
      applyBounds sensor.min_value sensor.max_value sensor.pattern_config.dc_offset := by
    simp [generateSensorValue, h1, h2, h3]
  refine ⟨hg, ?_, ?_⟩
  · intro m M hm hM hle1 hle2
    rw [hg, hm, hM]
    exact applyBounds_id m M _ hle1 hle2
  · intro hm hM
    rw [hg, hm, hM]
    rfl

/-- A sensor whose data_pattern is the unknown string "step" gets the default
branch of the generator: the value is the dc offset put through the bound
clamps. -/
theorem unknown_pattern_returns_dc_witness :
    ({ sineExample with data_pattern := "step" } : SensorData).data_pattern ≠ "sine" ∧
    ({ sineExample with data_pattern := "step" } : SensorData).data_pattern ≠ "noise" ∧
    ({ sineExample with data_pattern := "step" } : SensorData).data_pattern ≠ "square" ∧
    (generateSensorValue { sineExample with data_pattern := "step" } 0 0 =
      applyBounds ({ sineExample with data_pattern := "step" } : SensorData).min_value
        ({ sineExample with data_pattern := "step" } : SensorData).max_value
        ({ sineExample with data_pattern := "step" } : SensorData).pattern_config.dc_offset ∧
     (∀ m M, ({ sineExample with data_pattern := "step" } : SensorData).min_value = some m →
       ({ sineExample with data_pattern := "step" } : SensorData).max_value = some M →
       m ≤ ({ sineExample with data_pattern := "step" } : SensorData).pattern_config.dc_offset →
       ({ sineExample with data_pattern := "step" } : SensorData).pattern_config.dc_offset ≤ M →
       generateSensorValue { sineExample with data_pattern := "step" } 0 0 =
         ({ sineExample with data_pattern := "step" } : SensorData).pattern_config.dc_offset) ∧
     (({ sineExample with data_pattern := "step" } : SensorData).min_value = none →
       ({ sineExample with data_pattern := "step" } : SensorData).max_value = none →
       generateSensorValue { sineExample with data_pattern := "step" } 0 0 =
         ({ sineExample with data_pattern := "step" } : SensorData).pattern_config.dc_offset)) :=
  ⟨by decide, by decide, by decide,
    unknown_pattern_returns_dc _ 0 0 (by decide) (by decide) (by decide)⟩

lemma generateSensorValue_eq_applyBounds (sensor : SensorData) (t r : ℝ) :
    generateSensorValue sensor t r =
      applyBounds sensor.min_value sensor.max_value
        (generateSensorValue { sensor with min_value := none, max_value := none } t r) :=
  rfl

/-- C5: for every waveform kind (any data_pattern string) and any random
draw, the ADS generator's value lies within [minValue, maxValue] whenever
both bounds are set and ordered; when a bound is absent the corresponding
side is not clamped — with only a max the raw value is merely lowered to the
max, with only a min merely raised to the min.  The edge-function generator,
whose bounds are mandatory, stays within [minValue, maxValue] for every
pattern string as well (its default pattern scales the random draw
r ∈ [0, 1] over the range). -/
theorem generator_within_bounds (sensor : SensorData) (t r : ℝ) :
    (∀ m M, sensor.min_value = some m → sensor.max_value = some M → m ≤ M →
      generateSensorValue sensor t r ∈ Set.Icc m M) ∧
    (∀ M, sensor.min_value = none → sensor.max_value = some M →
      generateSensorValue sensor t r =
        min (generateSensorValue { sensor with min_value := none, max_value := none } t r) M) ∧
    (∀ m, sensor.min_value = some m → sensor.max_value = none →
      generateSensorValue sensor t r =
        max (generateSensorValue { sensor with min_value := none, max_value := none } t r) m) ∧
    (∀ (pattern : String) (mn mx : ℝ) (cfg : Option PatternConfig) (t2 r2 : ℝ),
      mn ≤ mx → 0 ≤ r2 → r2 ≤ 1 →
      simGenerateSensorValue pattern mn mx t2 cfg r2 ∈ Set.Icc mn mx) := by
  refine ⟨?_, ?_, ?_, ?_⟩
  · intro m M hm hM hle
    rw [generateSensorValue_eq_applyBounds, hm, hM]
    exact applyBounds_mem m M _ hle
  · intro M hmn hM
    rw [generateSensorValue_eq_applyBounds, hmn, hM, applyBounds_none_some]
  · intro m hm hmx
    rw [generateSensorValue_eq_applyBounds, hm, hmx, applyBounds_some_none]
  · intro pattern mn mx cfg t2 r2 hle hr0 hr1
    simp only [simGenerateSensorValue]
    split_ifs <;>
      first
        | exact clamp_mem mn mx _ hle
        | exact ⟨by nlinarith, by nlinarith⟩

/-- The demo temperature sensor at (1,1) carries bounds [0, 100]; the ADS
generator's value there lies in [0, 100], and so does the edge-function
value for the sine pattern over the same range. -/
theorem generator_within_bounds_witness :
    (mockSensor 1 1).min_value = some 0 ∧ (mockSensor 1 1).max_value = some 100 ∧
    (0 : ℝ) ≤ 100 ∧
    generateSensorValue (mockSensor 1 1) 0 0 ∈ Set.Icc (0 : ℝ) 100 ∧
    simGenerateSensorValue "sine" 0 100 0 none 0 ∈ Set.Icc (0 : ℝ) 100 :=
  ⟨rfl, rfl, by norm_num,
    (generator_within_bounds (mockSensor 1 1) 0 0).1 0 100 rfl rfl (by norm_num),
    (generator_within_bounds (mockSensor 1 1) 0 0).2.2.2 "sine" 0 100 none 0 0
      (by norm_num) le_rfl zero_le_one⟩

/-- C2: a successful Write acknowledges and stores the raw written value with
no re-clamping, so a Read before the next refresher tick returns exactly the
written value, whatever it is; after one `updateSensorData` tick the stored
value is instead the refresher-computed value — the clamped generator output
of the sensor's own waveform, not depending on the written value — which lies
within [minValue, maxValue] whenever both bounds are set and ordered. -/
theorem write_then_read_then_refresh (s : ServerState) (g o : ℕ) (sensor : SensorData)
    (v : ℝ) (now : ℤ) (t : ℝ) (rand : String → ℝ) (now2 : ℤ)
    (h : mapGet s.sensorDataMap (sensorKey g o) = some sensor) :
    (onWriteReq s g o v now).1 = .ack ∧
    (onReadReq (onWriteReq s g o v now).2 g o).1 = .value v ∧
    ((mapGet (updateSensorData t rand now2 (onWriteReq s g o v now).2.sensorDataMap)
        (sensorKey g o)).map (fun sd => sd.value)) =
      some (generateSensorValue sensor t (rand (sensorKey g o))) ∧
    (∀ m M, sensor.min_value = some m → sensor.max_value = some M → m ≤ M →
      generateSensorValue sensor t (rand (sensorKey g o)) ∈ Set.Icc m M) := by
  have hw : onWriteReq s g o v now =
      (.ack,
        { s with
            sensorDataMap := mapSet s.sensorDataMap (sensorKey g o)
              { sensor with value := v, timestamp := now } }) := by
    simp [onWriteReq, h]
  refine ⟨?_, ?_, ?_, ?_⟩
  · rw [hw]
  · rw [hw]
    simp [onReadReq, mapGet_mapSet_self]
  · rw [hw]
    simp only [mapGet_updateSensorData, mapGet_mapSet_self, Option.map_some']
    rfl
  · intro m M hm hM hle
    rw [generateSensorValue_eq_applyBounds, hm, hM]
    exact applyBounds_mem m M _ hle

/-- Writing the out-of-range value 500 to the demo sensor (1,1) (bounds
[0, 100]) is acknowledged, read back verbatim before the next refresher tick,
and replaced by the in-range refresher value after one tick. -/
theorem write_then_read_then_refresh_witness :
    mapGet mockState.sensorDataMap (sensorKey 1 1) = some (mockSensor 1 1) ∧
    ((onWriteReq mockState 1 1 500 1).1 = .ack ∧
     (onReadReq (onWriteReq mockState 1 1 500 1).2 1 1).1 = .value 500 ∧
     ((mapGet (updateSensorData 0 (fun _ => 0) 2 (onWriteReq mockState 1 1 500 1).2.sensorDataMap)
         (sensorKey 1 1)).map (fun sd => sd.value)) =
       some (generateSensorValue (mockSensor 1 1) 0 ((fun _ => (0 : ℝ)) (sensorKey 1 1))) ∧
     (∀ m M, (mockSensor 1 1).min_value = some m → (mockSensor 1 1).max_value = some M →
       m ≤ M →
       generateSensorValue (mockSensor 1 1) 0 ((fun _ => (0 : ℝ)) (sensorKey 1 1)) ∈
         Set.Icc m M)) :=
  ⟨rfl, write_then_read_then_refresh mockState 1 1 (mockSensor 1 1) 500 1 0 (fun _ => 0) 2 rfl⟩

/-- C1: the demo registry is dense — every address (m, s) with m in 1..5 and
s in 1..3 keys exactly one SensorState and the out-of-range (6,1) none — but
the database path is not: `initializeSensorData` increments its sensor
counter globally across modules, so six rows forming two modules of three
sensors each produce keys Module1_Sensor1..3 and Module2_Sensor4..6, leaving
the claimed address (2,1) with no SensorState while placing one at the
out-of-range address (2,4). -/
theorem registry_dense_mock_not_db :
    (∀ m ∈ [1, 2, 3, 4, 5], ∀ s ∈ [1, 2, 3],
      (createMockSensorData.filter (fun e => e.1 == sensorKey m s)).length = 1) ∧
    mapGet createMockSensorData (sensorKey 6 1) = none ∧
    ((initializeSensorDataFromRows twoModuleRows).map (fun e => e.1) =
      [sensorKey 1 1, sensorKey 1 2, sensorKey 1 3,
       sensorKey 2 4, sensorKey 2 5, sensorKey 2 6]) ∧
    mapGet (initializeSensorDataFromRows twoModuleRows) (sensorKey 2 1) = none ∧
    (mapGet (initializeSensorDataFromRows twoModuleRows) (sensorKey 2 4)).isSome = true :=
  ⟨by decide, rfl, by decide, rfl, by decide⟩

/-- C6 counterexample: with one and the same square config (amplitude 10,
dc offset 50) at an instant where the carrier sine is positive, the ADS
server's generator produces the symmetric dcOffset + amplitude = 60 while the
edge function produces the asymmetric dcOffset + 0.8·amplitude = 58: the
claimed single square-wave convention does not hold across the system's
generator implementations. -/
theorem square_convention_counterexample :
    generateSensorValue squareSensor 0 0 = 60 ∧
    simGenerateSensorValue "square" (-1000) 1000 0 (some squareCfg) 0 = 58 ∧
    simGenerateSensorValue "square" (-1000) 1000 0 (some squareCfg) 0 ≠
      generateSensorValue squareSensor 0 0 := by
  have hs1 : ("square" : String) ≠ "sine" := by decide
  have hs2 : ("square" : String) ≠ "noise" := by decide
  have h1 : generateSensorValue squareSensor 0 0 = 60 := by
    simp [generateSensorValue, squareSensor, squareCfg, applyBounds, hs1, hs2,
      Real.sin_pi_div_two]
    norm_num
  have h2 : simGenerateSensorValue "square" (-1000) 1000 0 (some squareCfg) 0 = 58 := by
    simp [simGenerateSensorValue, squareCfg, hs1, hs2, Real.sin_pi_div_two]
    norm_num
  refine ⟨h1, h2, ?_⟩
  rw [h1, h2]
  norm_num

/-- C6 amended: each implementation has one fixed square-wave convention,
but they differ.  Whenever the carrier sine is positive, the ADS server's
generator (unbounded here) produces the symmetric dcOffset + amplitude,
while the edge function produces the asymmetric dcOffset + 0.8·amplitude,
clamped to its mandatory bounds. -/
theorem square_conventions_pinned (cfg : PatternConfig) (mn mx t r : ℝ)
    (h : Real.sin (cfg.frequency * t + cfg.phase_offset) > 0) :
    generateSensorValue
        { id := "s", module_id := "s", name := "s", data_pattern := "square",
          pattern_config := cfg, min_value := none, max_value := none,
          value := 0, timestamp := 0 } t r =
      cfg.dc_offset + cfg.amplitude ∧
    simGenerateSensorValue "square" mn mx t (some cfg) r =
      max mn (min mx (cfg.dc_offset + cfg.amplitude * 0.8)) := by
  have hs1 : ("square" : String) ≠ "sine" := by decide
  have hs2 : ("square" : String) ≠ "noise" := by decide
  constructor
  · simp [generateSensorValue, applyBounds, hs1, hs2, h]
  · simp [simGenerateSensorValue, hs1, hs2, h]

/-- At the concrete square config (amplitude 10, dc offset 50, phase π/2,
time 0) the carrier sine is positive and the two pinned conventions yield
their respective formulas. -/
theorem square_conventions_pinned_witness :
    Real.sin (squareCfg.frequency * 0 + squareCfg.phase_offset) > 0 ∧
    (generateSensorValue
        { id := "s", module_id := "s", name := "s", data_pattern := "square",
          pattern_config := squareCfg, min_value := none, max_value := none,
          value := 0, timestamp := 0 } 0 0 =
      squareCfg.dc_offset + squareCfg.amplitude ∧
     simGenerateSensorValue "square" (-1000) 1000 0 (some squareCfg) 0 =
      max (-1000) (min 1000 (squareCfg.dc_offset + squareCfg.amplitude * 0.8))) := by
  have hsin : Real.sin (squareCfg.frequency * 0 + squareCfg.phase_offset) > 0 := by
    simp [squareCfg, Real.sin_pi_div_two]
  exact ⟨hsin, square_conventions_pinned squareCfg (-1000) 1000 0 0 hsin⟩

lemma find?_handle_filter_ne (l : List NotificationSubscriber) (h : ℕ) :
    (l.filter (fun sub => sub.notificationHandle != h)).find?
      (fun sub => sub.notificationHandle == h) = none := by
  rw [List.find?_eq_none]
  intro x hx
  have hxp := (List.mem_filter.mp hx).2
  simp only [bne_iff_ne, ne_eq] at hxp
  simp [hxp]

lemma mem_filter_handle_ne (l : List NotificationSubscriber) (h : ℕ) :
    ∀ sub ∈ l.filter (fun sub => sub.notificationHandle != h),
      sub.notificationHandle ≠ h := by
  intro sub hsub
  have := (List.mem_filter.mp hsub).2
  simpa [bne_iff_ne] using this

/-- C4: on a valid address, AddNotification answers with the fresh handle
`nextHandle` — new in the sense that no live subscriber carries it — and
registers a subscription under it; DeleteNotification with that handle then
acknowledges and removes every subscription carrying it; a second
DeleteNotification with the same handle answers with error 1812
(INVALID_NOTIFICATION_HANDLE). -/
theorem add_delete_delete (s : ServerState) (g o : ℕ) (ams : String) (port : ℕ) (ct : ℤ)
    (hv : (mapGet s.sensorDataMap (sensorKey g o)).isSome = true)
    (hinv : ∀ sub ∈ s.subscribers, sub.notificationHandle < s.nextHandle) :
    (onAddNotification s g o ams port ct).1 = .handle s.nextHandle ∧
    (∀ sub ∈ s.subscribers, sub.notificationHandle ≠ s.nextHandle) ∧
    (∃ sub ∈ (onAddNotification s g o ams port ct).2.subscribers,
      sub.notificationHandle = s.nextHandle) ∧
    (onDeleteNotification (onAddNotification s g o ams port ct).2 s.nextHandle).1 = .ack ∧
    (∀ sub ∈ (onDeleteNotification (onAddNotification s g o ams port ct).2
        s.nextHandle).2.subscribers,
      sub.notificationHandle ≠ s.nextHandle) ∧
    (onDeleteNotification
        (onDeleteNotification (onAddNotification s g o ams port ct).2 s.nextHandle).2
        s.nextHandle).1 = .error INVALID_NOTIFICATION_HANDLE := by
  obtain ⟨sensor, hsen⟩ := Option.isSome_iff_exists.mp hv
  have hadd : onAddNotification s g o ams port ct =
      (.handle s.nextHandle,
        { s with
            subscribers := s.subscribers ++
              [{ notificationHandle := s.nextHandle, targetAmsNetId := ams,
                 targetAdsPort := port, indexGroup := g, indexOffset := o,
                 cycleTime := ct, lastSendTime := 0 }]
            nextHandle := s.nextHandle + 1 }) := by
    simp [onAddNotification, hsen]
  have hfind : (s.subscribers ++
      [({ notificationHandle := s.nextHandle, targetAmsNetId := ams,
          targetAdsPort := port, indexGroup := g, indexOffset := o,
          cycleTime := ct, lastSendTime := 0 } : NotificationSubscriber)]).find?
        (fun sub => sub.notificationHandle == s.nextHandle) =
      some { notificationHandle := s.nextHandle, targetAmsNetId := ams,
             targetAdsPort := port, indexGroup := g, indexOffset := o,
             cycleTime := ct, lastSendTime := 0 } := by
    rw [List.find?_append]
    have hn : s.subscribers.find? (fun sub => sub.notificationHandle == s.nextHandle) =
        none := by
      rw [List.find?_eq_none]
      intro x hx hxe
      have hlt := hinv x hx
      have : x.notificationHandle = s.nextHandle := by simpa using hxe
      omega
    rw [hn]
    simp
  have hdel : onDeleteNotification (onAddNotification s g o ams port ct).2 s.nextHandle =
      (.ack,
        { s with
            subscribers := (s.subscribers ++
              [({ notificationHandle := s.nextHandle, targetAmsNetId := ams,
                  targetAdsPort := port, indexGroup := g, indexOffset := o,
                  cycleTime := ct, lastSendTime := 0 } : NotificationSubscriber)]).filter
                (fun sub => sub.notificationHandle != s.nextHandle)
            nextHandle := s.nextHandle + 1 }) := by
    rw [hadd]
    simp only [onDeleteNotification, hfind]
  refine ⟨?_, ?_, ?_, ?_, ?_, ?_⟩
  · rw [hadd]
  · intro sub hsub
    have := hinv sub hsub
    omega
  · rw [hadd]
    refine ⟨_, List.mem_append_right _ (List.mem_singleton.mpr rfl), rfl⟩
  · rw [hdel]
  · rw [hdel]
    exact mem_filter_handle_ne _ s.nextHandle
  · rw [hdel]
    simp only [onDeleteNotification, find?_handle_filter_ne]

/-- At the startup demo state (address (1,1) valid, no subscribers, next
handle 1): AddNotification yields handle 1, deleting it succeeds, and
deleting it again yields error 1812. -/
theorem add_delete_delete_witness :
    (mapGet mockState.sensorDataMap (sensorKey 1 1)).isSome = true ∧
    (∀ sub ∈ mockState.subscribers, sub.notificationHandle < mockState.nextHandle) ∧
    ((onAddNotification mockState 1 1 "a" 851 1000).1 = .handle mockState.nextHandle ∧
     (∀ sub ∈ mockState.subscribers, sub.notificationHandle ≠ mockState.nextHandle) ∧
     (∃ sub ∈ (onAddNotification mockState 1 1 "a" 851 1000).2.subscribers,
       sub.notificationHandle = mockState.nextHandle) ∧
     (onDeleteNotification (onAddNotification mockState 1 1 "a" 851 1000).2
        mockState.nextHandle).1 = .ack ∧
     (∀ sub ∈ (onDeleteNotification (onAddNotification mockState 1 1 "a" 851 1000).2
         mockState.nextHandle).2.subscribers,
       sub.notificationHandle ≠ mockState.nextHandle) ∧
     (onDeleteNotification
         (onDeleteNotification (onAddNotification mockState 1 1 "a" 851 1000).2
           mockState.nextHandle).2
         mockState.nextHandle).1 = .error INVALID_NOTIFICATION_HANDLE) :=
  ⟨rfl, by simp [mockState, initialState],
    add_delete_delete mockState 1 1 "a" 851 1000 rfl (by simp [mockState, initialState])⟩

lemma step_nextHandle_le (s : ServerState) (r : Request) :
    s.nextHandle ≤ (step s r).2.nextHandle := by
  cases r <;>
    simp only [step, onReadReq, onWriteReq, onReadWriteReq, onAddNotification,
      onDeleteNotification] <;>
    split <;> simp

lemma step_handle_eq (s : ServerState) (r : Request) (h : ℕ)
    (hh : (step s r).1 = .handle h) :
    h = s.nextHandle ∧ (step s r).2.nextHandle = s.nextHandle + 1 := by
  cases r with
  | read g o =>
      simp only [step, onReadReq] at hh
      rcases hm : mapGet s.sensorDataMap (sensorKey g o) with _ | sensor <;>
        simp [hm] at hh
  | write g o v now =>
      simp only [step, onWriteReq] at hh
      rcases hm : mapGet s.sensorDataMap (sensorKey g o) with _ | sensor <;>
        simp [hm] at hh
  | readWrite g o =>
      simp only [step, onReadWriteReq] at hh
      rcases hm : mapGet s.sensorDataMap (sensorKey g o) with _ | sensor <;>
        simp [hm] at hh
  | deleteNotification hd =>
      simp only [step, onDeleteNotification] at hh
      rcases hm : s.subscribers.find? (fun sub => sub.notificationHandle == hd) with _ | x <;>
        simp [hm] at hh
  | addNotification g o ams port ct =>
      simp only [step, onAddNotification] at hh ⊢
      rcases hm : mapGet s.sensorDataMap (sensorKey g o) with _ | sensor <;>
        simp [hm] at hh ⊢
      exact hh.symm

lemma issuedHandles_sorted (reqs : List Request) : ∀ s : ServerState,
    (∀ h ∈ issuedHandles s reqs, s.nextHandle ≤ h) ∧
    (issuedHandles s reqs).Pairwise (fun a b => a < b) := by
  induction reqs with
  | nil => intro s; simp [issuedHandles]
  | cons r rs ih =>
      intro s
      rcases hh : (step s r).1 with _ | v | h0 | c
      case handle =>
        have hstep := step_handle_eq s r h0 hh
        have hrest := ih (step s r).2
        constructor
        · intro h hmem
          simp only [issuedHandles, hh, List.singleton_append, List.mem_cons] at hmem
          rcases hmem with rfl | hmem
          · omega
          · have := hrest.1 h hmem
            omega
        · simp only [issuedHandles, hh, List.singleton_append]
          refine List.Pairwise.cons ?_ hrest.2
          intro b hb
          have := hrest.1 b hb
          omega
      all_goals
        have hle := step_nextHandle_le s r
        have hrest := ih (step s r).2
        constructor
        · intro h hmem
          simp only [issuedHandles, hh, List.nil_append] at hmem
          have := hrest.1 h hmem
          omega
        · simpa only [issuedHandles, hh, List.nil_append] using hrest.2

/-- C8: along any run of decoded requests from the server's startup state
(next handle 1, whatever the registry), the handles returned by successful
AddNotification responses are pairwise distinct — in fact strictly
increasing, because deletion never rewinds the counter — so no handle is
issued twice within one run and a deleted subscription's handle is never
handed out again. -/
theorem handles_never_reused (m0 : List (String × SensorData)) (reqs : List Request) :
    (issuedHandles (initialState m0) reqs).Pairwise (fun a b => a ≠ b) :=
  ((issuedHandles_sorted reqs (initialState m0)).2).imp Nat.ne_of_lt

lemma tickSub_handle (now : ℤ) (m : List (String × SensorData))
    (sub : NotificationSubscriber) :
    ((tickSub now m sub).1).notificationHandle = sub.notificationHandle := by
  by_cases hcond : sub.cycleTime ≤ now - sub.lastSendTime
  · rcases hm : mapGet m (sensorKey sub.indexGroup sub.indexOffset) with _ | sensor <;>
      simp [tickSub, hcond, hm]
  · simp [tickSub, hcond]

lemma tickSub_eq_some_iff (now : ℤ) (m : List (String × SensorData))
    (sub : NotificationSubscriber) (hh : ℕ) :
    (tickSub now m sub).2 = some hh ↔
      sub.notificationHandle = hh ∧ sub.cycleTime ≤ now - sub.lastSendTime ∧
        (mapGet m (sensorKey sub.indexGroup sub.indexOffset)).isSome = true := by
  by_cases hcond : sub.cycleTime ≤ now - sub.lastSendTime
  · rcases hm : mapGet m (sensorKey sub.indexGroup sub.indexOffset) with _ | sensor <;>
      simp [tickSub, hcond, hm]
  · simp [tickSub, hcond]

lemma tickSub_none (now : ℤ) (m : List (String × SensorData))
    (sub : NotificationSubscriber) (h : (tickSub now m sub).2 = none) :
    (tickSub now m sub).1 = sub := by
  by_cases hcond : sub.cycleTime ≤ now - sub.lastSendTime
  · rcases hm : mapGet m (sensorKey sub.indexGroup sub.indexOffset) with _ | sensor
    · simp [tickSub, hcond, hm]
    · simp [tickSub, hcond, hm] at h
  · simp [tickSub, hcond]

lemma tickSub_some (now : ℤ) (m : List (String × SensorData))
    (sub : NotificationSubscriber) (hh : ℕ) (h : (tickSub now m sub).2 = some hh) :
    (tickSub now m sub).1 = { sub with lastSendTime := now } := by
  by_cases hcond : sub.cycleTime ≤ now - sub.lastSendTime
  · rcases hm : mapGet m (sensorKey sub.indexGroup sub.indexOffset) with _ | sensor
    · simp [tickSub, hcond, hm] at h
    · simp [tickSub, hcond, hm]
  · simp [tickSub, hcond] at h

lemma countP_le_one_eq {α : Type} (p : α → Bool) (l : List α) (hc : l.countP p ≤ 1)
    (x y : α) (hx : x ∈ l) (hy : y ∈ l) (hpx : p x = true) (hpy : p y = true) :
    x = y := by
  rw [List.countP_eq_length_filter] at hc
  have hx' : x ∈ l.filter p := List.mem_filter.mpr ⟨hx, hpx⟩
  have hy' : y ∈ l.filter p := List.mem_filter.mpr ⟨hy, hpy⟩
  have hpos : 0 < (l.filter p).length := List.length_pos.mpr (List.ne_nil_of_mem hx')
  have hone : (l.filter p).length = 1 := by omega
  obtain ⟨a, ha⟩ := List.length_eq_one.mp hone
  rw [ha] at hx' hy'
  rw [List.mem_singleton.mp hx', List.mem_singleton.mp hy']

lemma handleState_tick (h : ℕ) (c L t : ℤ) (s : ServerState)
    (hs : handleState h c L s) :
    (h ∈ (notificationTick t s).2 →
      c ≤ t - L ∧ handleState h c t (notificationTick t s).1) ∧
    (h ∉ (notificationTick t s).2 →
      handleState h c L (notificationTick t s).1) := by
  obtain ⟨hcount, hall⟩ := hs
  have hcount' : ((notificationTick t s).1).subscribers.countP
      (fun sub => sub.notificationHandle == h) ≤ 1 := by
    simp only [notificationTick, List.countP_map]
    calc s.subscribers.countP
          ((fun sub => sub.notificationHandle == h) ∘
            fun sub => (tickSub t s.sensorDataMap sub).1)
        = s.subscribers.countP (fun sub => sub.notificationHandle == h) := by
          apply List.countP_congr
          intro x _
          simp [Function.comp, tickSub_handle]
      _ ≤ 1 := hcount
  constructor
  · intro hd
    simp only [notificationTick, List.mem_filterMap] at hd
    obtain ⟨sub0, hsub0, hsome⟩ := hd
    obtain ⟨hh0, hcond0, _⟩ := (tickSub_eq_some_iff t s.sensorDataMap sub0 h).mp hsome
    obtain ⟨hc0, hL0⟩ := hall sub0 hsub0 hh0
    refine ⟨by omega, hcount', ?_⟩
    intro x hx hxh
    simp only [notificationTick, List.mem_map] at hx
    obtain ⟨y, hy, hgy⟩ := hx
    have hyh : y.notificationHandle = h := by
      rw [← hgy] at hxh
      rwa [tickSub_handle] at hxh
    have hy0 : y = sub0 :=
      countP_le_one_eq _ _ hcount y sub0 hy hsub0 (by simp [hyh]) (by simp [hh0])
    subst hy0
    have hfst : (tickSub t s.sensorDataMap y).1 = { y with lastSendTime := t } :=
      tickSub_some t s.sensorDataMap y h hsome
    rw [← hgy, hfst]
    obtain ⟨hcy, _⟩ := hall y hy hyh
    exact ⟨hcy, rfl⟩
  · intro hnd
    refine ⟨hcount', ?_⟩
    intro x hx hxh
    simp only [notificationTick, List.mem_map] at hx
    obtain ⟨y, hy, hgy⟩ := hx
    have hyh : y.notificationHandle = h := by
      rw [← hgy] at hxh
      rwa [tickSub_handle] at hxh
    have hnone : (tickSub t s.sensorDataMap y).2 = none := by
      rcases ho : (tickSub t s.sensorDataMap y).2 with _ | hh
      · rfl
      · exfalso
        have hhy := ((tickSub_eq_some_iff t s.sensorDataMap y hh).mp ho).1
        apply hnd
        simp only [notificationTick, List.mem_filterMap]
        exact ⟨y, hy, by rw [ho, ← hhy, hyh]⟩
    have hfst : (tickSub t s.sensorDataMap y).1 = y := tickSub_none t s.sensorDataMap y hnone
    rw [← hgy, hfst]
    exact hall y hy hyh

lemma deliveries_chain (h : ℕ) (c : ℤ) (ts : List ℤ) : ∀ (s : ServerState) (L : ℤ),
    handleState h c L s →
    List.Chain (fun a b => c ≤ b - a) L (deliveriesOf h ts s) := by
  induction ts with
  | nil =>
      intro s L _
      exact List.Chain.nil
  | cons t ts ih =>
      intro s L hs
      by_cases hd : h ∈ (notificationTick t s).2
      · have hstep := (handleState_tick h c L t s hs).1 hd
        simp only [deliveriesOf, if_pos hd, List.singleton_append]
        exact List.Chain.cons (by omega) (ih _ t hstep.2)
      · have hstep := (handleState_tick h c L t s hs).2 hd
        simp only [deliveriesOf, if_neg hd, List.nil_append]
        exact ih _ L hstep

/-- C9: the scheduler never delivers to one subscription twice within its
cycle time.  For any live subscription (its handle unique among subscribers,
as AddNotification guarantees) and any sequence of scheduler ticks, the
instants at which it is delivered to form a chain starting at its recorded
`lastSendTime` in which consecutive instants are at least `cycleTime` apart:
a delivery happens on a tick only when `now - lastSendTime ≥ cycleTime`, and
`lastSendTime` is set to `now` on delivery, so a subscription with
cycleTime = 1000 is never delivered twice within any 999 ms window measured
from its creation or last delivery. -/
theorem notification_rate_limited (s : ServerState) (sub : NotificationSubscriber)
    (ts : List ℤ) (hmem : sub ∈ s.subscribers)
    (hnd : (s.subscribers.map (fun x => x.notificationHandle)).Nodup) :
    List.Chain (fun a b => sub.cycleTime ≤ b - a) sub.lastSendTime
      (deliveriesOf sub.notificationHandle ts s) ∧
    List.Chain' (fun a b => sub.cycleTime ≤ b - a)
      (deliveriesOf sub.notificationHandle ts s) := by
  have hstate : handleState sub.notificationHandle sub.cycleTime sub.lastSendTime s := by
    constructor
    · have hcm : s.subscribers.countP
          (fun x => x.notificationHandle == sub.notificationHandle) =
          (s.subscribers.map (fun x => x.notificationHandle)).count
            sub.notificationHandle := by
        rw [List.count_eq_countP, List.countP_map]
        rfl
      rw [hcm]
      exact List.nodup_iff_count_le_one.mp hnd _
    · intro x hx hxh
      have hxe : x = sub :=
        List.inj_on_of_nodup_map hnd hx hmem (by rw [hxh])
      rw [hxe]
      exact ⟨rfl, rfl⟩
  have hchain := deliveries_chain sub.notificationHandle sub.cycleTime ts s
    sub.lastSendTime hstate
  refine ⟨hchain, ?_⟩
  have hchain' : List.Chain' (fun a b => sub.cycleTime ≤ b - a)
      (sub.lastSendTime :: deliveriesOf sub.notificationHandle ts s) := hchain
  exact hchain'.tail

/-- The demo subscription (handle 1, cycle 1000 ms, last send 0) over ticks
at 1500, 2000 and 2600 ms: its delivery instants are at least 1000 ms apart. -/
theorem notification_rate_limited_witness :
    oneSecondSub ∈ subscribedState.subscribers ∧
    (subscribedState.subscribers.map (fun x => x.notificationHandle)).Nodup ∧
    (List.Chain (fun a b => oneSecondSub.cycleTime ≤ b - a) oneSecondSub.lastSendTime
      (deliveriesOf oneSecondSub.notificationHandle [1500, 2000, 2600] subscribedState) ∧
     List.Chain' (fun a b => oneSecondSub.cycleTime ≤ b - a)
      (deliveriesOf oneSecondSub.notificationHandle [1500, 2000, 2600] subscribedState)) :=
  ⟨by simp [subscribedState], by simp [subscribedState],
    notification_rate_limited subscribedState oneSecondSub [1500, 2000, 2600]
      (by simp [subscribedState]) (by simp [subscribedState])⟩

end PlcSim
